import Mathlib

/-
Verification of the feature-derivation and prediction contract of
src/app.py (Patient Visit Prediction Dashboard).

The app builds a one-row feature frame from a selected patient and date
(src/app.py lines 47-57):
  'PATIENT NAME' : selected_patient
  'year'         : selected_date.year
  'month'        : selected_date.month
  'day_of_week'  : selected_date.weekday()          -- Monday=0, Sunday=6
  'week_of_year' : selected_date.isocalendar().week
  'quarter'      : (selected_date.month - 1) // 3 + 1
and displays max(0, round(pipeline.predict(input_data)[0])) (line 64).

selected_date is a Python datetime.date, so weekday() and isocalendar()
have CPython's semantics; they are embedded below following CPython's
datetime module (proleptic Gregorian ordinals, _days_before_year,
_days_before_month, _isoweek1monday, isocalendar).  Python's // and %
on these values agree with Int ediv / emod since every divisor is a
positive literal.  Python's round is round-half-to-even; the raw model
output is embedded as a rational number.
-/

namespace HezlinHealthcare

/-- Gregorian leap-year test, as CPython's _is_leap:
year % 4 == 0 and (year % 100 != 0 or year % 400 == 0). -/
def isLeap (y : ℤ) : Bool :=
  y % 4 == 0 && (y % 100 != 0 || y % 400 == 0)

/-- Number of days in a month, as CPython's _days_in_month. -/
def daysInMonth (y m : ℤ) : ℤ :=
  if m = 2 then (if isLeap y then 29 else 28)
  else if m = 4 ∨ m = 6 ∨ m = 9 ∨ m = 11 then 30
  else 31

/-- Days in the year before the first of the given month, as CPython's
_days_before_month (cumulative table plus a leap correction after February). -/
def daysBeforeMonth (y m : ℤ) : ℤ :=
  (if m = 1 then 0 else if m = 2 then 31 else if m = 3 then 59
   else if m = 4 then 90 else if m = 5 then 120 else if m = 6 then 151
   else if m = 7 then 181 else if m = 8 then 212 else if m = 9 then 243
   else if m = 10 then 273 else if m = 11 then 304 else 334)
  + (if 2 < m ∧ isLeap y = true then 1 else 0)

/-- Days before January 1 of the given year, as CPython's _days_before_year:
y = year - 1; y*365 + y//4 - y//100 + y//400. -/
def daysBeforeYear (year : ℤ) : ℤ :=
  365 * (year - 1) + (year - 1) / 4 - (year - 1) / 100 + (year - 1) / 400

/-- A calendar date as CPython's datetime.date carries it. -/
structure Date where
  year : ℤ
  month : ℤ
  day : ℤ
deriving DecidableEq

/-- Validity of a date, as enforced by datetime.date's constructor
(year at least 1, month 1..12, day 1..days-in-month). -/
def validDate (d : Date) : Prop :=
  1 ≤ d.year ∧ 1 ≤ d.month ∧ d.month ≤ 12 ∧ 1 ≤ d.day ∧
    d.day ≤ daysInMonth d.year d.month

instance (d : Date) : Decidable (validDate d) := by
  unfold validDate; infer_instance

/-- Proleptic Gregorian ordinal of a date, as CPython's _ymd2ord
(January 1 of year 1 is ordinal 1). -/
def ymd2ord (d : Date) : ℤ :=
  daysBeforeYear d.year + daysBeforeMonth d.year d.month + d.day

/-- date.weekday(): (ordinal + 6) % 7, Monday = 0 .. Sunday = 6. -/
def weekday (d : Date) : ℤ :=
  (ymd2ord d + 6) % 7

/-- Ordinal of the Monday starting ISO week 1 of the given year, as
CPython's _isoweek1monday. -/
def isoweek1monday (year : ℤ) : ℤ :=
  let firstday := daysBeforeYear year + 1
  let firstweekday := (firstday + 6) % 7
  let week1monday := firstday - firstweekday
  if 3 < firstweekday then week1monday + 7 else week1monday

/-- Result of date.isocalendar(): ISO year, ISO week (1-based), ISO
weekday (Monday = 1 .. Sunday = 7). -/
structure IsoCalendarDate where
  year : ℤ
  week : ℤ
  weekday : ℤ
deriving DecidableEq

/-- date.isocalendar(), following CPython: week and day from
divmod(today - week1monday, 7); a negative week rolls to the previous
ISO year; week 52-or-more rolls to week 1 of the next ISO year when the
date is on or after the next year's week-1 Monday. -/
def isocalendar (d : Date) : IsoCalendarDate :=
  let today := ymd2ord d
  let week1monday := isoweek1monday d.year
  let week := (today - week1monday) / 7
  let day := (today - week1monday) % 7
  if week < 0 then
    let w1m := isoweek1monday (d.year - 1)
    ⟨d.year - 1, (today - w1m) / 7 + 1, (today - w1m) % 7 + 1⟩
  else if 52 ≤ week ∧ isoweek1monday (d.year + 1) ≤ today then
    ⟨d.year + 1, 1, day + 1⟩
  else
    ⟨d.year, week + 1, day + 1⟩

/-- The one-row feature frame built at src/app.py lines 47-57
(the FeatureRecord of the spec). -/
structure InputData where
  patientName : String
  year : ℤ
  month : ℤ
  day_of_week : ℤ
  week_of_year : ℤ
  quarter : ℤ
deriving DecidableEq

/-- Construction of the feature frame from the selected patient and date,
src/app.py lines 47-57. -/
def inputData (selected_patient : String) (selected_date : Date) : InputData :=
  { patientName := selected_patient
    year := selected_date.year
    month := selected_date.month
    day_of_week := weekday selected_date
    week_of_year := (isocalendar selected_date).week
    quarter := (selected_date.month - 1) / 3 + 1 }

/-- Python's built-in round on the raw model output (src/app.py line 64):
round to the nearest integer, ties to the even neighbour. -/
def pyRound (x : ℚ) : ℤ :=
  let f := ⌊x⌋
  let r := x - (f : ℚ)
  if r < 1/2 then f
  else if (1 : ℚ)/2 < r then f + 1
  else if f % 2 = 0 then f else f + 1

/-- Post-processing of the raw scorer output into the displayed count,
src/app.py line 64: max(0, round(raw)).  This is the spec's
predict_visits on a scorer output. -/
def predict_visits (raw : ℚ) : ℤ :=
  max 0 (pyRound raw)

/-- Error taxonomy of the spec (section 7). -/
inductive PredError where
  | invalidPatientError
  | scoringError
deriving DecidableEq

/-- Modelled from the spec: build_features with roster validation raising
InvalidPatientError (spec section 4.1).  src/app.py has no such check in
logic; the UI selectbox at line 38 restricts input to the roster instead,
and the spec states the explicit validation as the contract for the
feature builder. -/
def build_features (roster : List String) (patient : String) (d : Date) :
    Except PredError InputData :=
  if patient ∈ roster then Except.ok (inputData patient d)
  else Except.error PredError.invalidPatientError

/-- Modelled from the spec: predict_visits with an injected scorer that
may fail, reporting ScoringError (spec section 4.2).  In src/app.py the
scorer is the loaded pipeline called at line 60 with no wrapper; a scorer
failure is modelled as the scorer returning none. -/
def predict_visits_with (scorer : InputData → Option ℚ) (rec : InputData) :
    Except PredError ℤ :=
  match scorer rec with
  | none => Except.error PredError.scoringError
  | some raw => Except.ok (max 0 (pyRound raw))

/-- Calendar successor of a date: the next day, rolling over month and
year ends.  Reference definition used to state that weekday follows the
actual calendar. -/
def nextDate (d : Date) : Date :=
  if d.day < daysInMonth d.year d.month then ⟨d.year, d.month, d.day + 1⟩
  else if d.month < 12 then ⟨d.year, d.month + 1, 1⟩
  else ⟨d.year + 1, 1, 1⟩

/-- The Boolean leap test unfolded to arithmetic. -/
lemma isLeap_spec (y : ℤ) :
    isLeap y = true ↔ (y % 4 = 0 ∧ (y % 100 ≠ 0 ∨ y % 400 = 0)) := by
  simp [isLeap]

/-- One Gregorian year has 366 days when leap, 365 otherwise, as counted
by daysBeforeYear. -/
lemma daysBeforeYear_succ (y : ℤ) :
    daysBeforeYear (y + 1) = daysBeforeYear y + (if isLeap y = true then 366 else 365) := by
  by_cases h : isLeap y = true
  · rw [if_pos h, isLeap_spec] at *
    unfold daysBeforeYear
    omega
  · rw [if_neg h]
    rw [isLeap_spec] at h
    unfold daysBeforeYear
    omega

/-- isoweek1monday with its let bindings unfolded. -/
lemma isoweek1monday_eq (year : ℤ) :
    isoweek1monday year =
      (if 3 < (daysBeforeYear year + 1 + 6) % 7
       then daysBeforeYear year + 1 - (daysBeforeYear year + 1 + 6) % 7 + 7
       else daysBeforeYear year + 1 - (daysBeforeYear year + 1 + 6) % 7) := rfl

/-- The week-1 Monday of a year lies within three days of January 1 and
is a Monday (ordinals congruent to 1 mod 7 are Mondays, since ordinal 1
is a Monday). -/
lemma isoweek1monday_props (year : ℤ) :
    daysBeforeYear year - 2 ≤ isoweek1monday year ∧
      isoweek1monday year ≤ daysBeforeYear year + 4 ∧
      isoweek1monday year % 7 = 1 := by
  rw [isoweek1monday_eq]
  split_ifs with h <;> omega

/-- Consecutive week-1 Mondays are 52 or 53 whole weeks apart. -/
lemma isoweek1monday_succ (y : ℤ) :
    364 ≤ isoweek1monday (y + 1) - isoweek1monday y ∧
      isoweek1monday (y + 1) - isoweek1monday y ≤ 371 := by
  have h1 := isoweek1monday_props y
  have h2 := isoweek1monday_props (y + 1)
  have h3 := daysBeforeYear_succ y
  split_ifs at h3 <;> omega

/-- daysBeforeMonth is non-negative and, together with the days of the
month itself, stays within the length of the year. -/
lemma daysBeforeMonth_bounds (y m : ℤ) (h1 : 1 ≤ m) (h2 : m ≤ 12) :
    0 ≤ daysBeforeMonth y m ∧
      daysBeforeMonth y m + daysInMonth y m ≤
        365 + (if isLeap y = true then 1 else 0) := by
  unfold daysBeforeMonth daysInMonth
  interval_cases m <;> by_cases h : isLeap y = true <;> simp [h]

/-- The cumulative day table advances by exactly the length of each
month. -/
lemma daysBeforeMonth_succ (y m : ℤ) (h1 : 1 ≤ m) (h2 : m ≤ 11) :
    daysBeforeMonth y (m + 1) = daysBeforeMonth y m + daysInMonth y m := by
  unfold daysBeforeMonth daysInMonth
  interval_cases m <;> by_cases h : isLeap y = true <;> simp [h]

/-- The Gregorian ordinal of the calendar successor of a valid date is
one more than the ordinal of the date itself. -/
lemma ymd2ord_nextDate (d : Date) (h : validDate d) :
    ymd2ord (nextDate d) = ymd2ord d + 1 := by
  obtain ⟨hy, hm1, hm2, hd1, hd2⟩ := h
  have hsucc := daysBeforeYear_succ d.year
  unfold nextDate
  split_ifs with h1 h2
  · simp only [ymd2ord]
    omega
  · have hstep := daysBeforeMonth_succ d.year d.month hm1 (by omega)
    simp only [ymd2ord]
    omega
  · have hm : d.month = 12 := by omega
    have hdim : daysInMonth d.year d.month = 31 := by
      rw [hm]; unfold daysInMonth; norm_num
    have hbm : daysBeforeMonth d.year d.month =
        334 + (if isLeap d.year = true then 1 else 0) := by
      rw [hm]; unfold daysBeforeMonth; norm_num
    have hbm1 : daysBeforeMonth (d.year + 1) 1 = 0 := by
      unfold daysBeforeMonth; norm_num
    simp only [ymd2ord]
    split_ifs at hsucc hbm <;> omega

/-- Stepping one calendar day forward advances the weekday by one,
cyclically. -/
lemma weekday_nextDate (d : Date) (h : validDate d) :
    weekday (nextDate d) = (weekday d + 1) % 7 := by
  unfold weekday
  rw [ymd2ord_nextDate d h]
  omega

/-- The ordinal of a valid date lies between January 1 of its year and
December 31 of its year. -/
lemma ymd2ord_bounds (d : Date) (h : validDate d) :
    daysBeforeYear d.year + 1 ≤ ymd2ord d ∧
      ymd2ord d ≤ daysBeforeYear (d.year + 1) := by
  obtain ⟨hy, hm1, hm2, hd1, hd2⟩ := h
  have hb := daysBeforeMonth_bounds d.year d.month hm1 hm2
  have hs := daysBeforeYear_succ d.year
  unfold ymd2ord
  split_ifs at hb hs <;> omega

/-- isocalendar with its let bindings unfolded. -/
lemma isocalendar_eq (d : Date) :
    isocalendar d =
      (if (ymd2ord d - isoweek1monday d.year) / 7 < 0 then
        (⟨d.year - 1, (ymd2ord d - isoweek1monday (d.year - 1)) / 7 + 1,
          (ymd2ord d - isoweek1monday (d.year - 1)) % 7 + 1⟩ : IsoCalendarDate)
      else if 52 ≤ (ymd2ord d - isoweek1monday d.year) / 7 ∧
          isoweek1monday (d.year + 1) ≤ ymd2ord d then
        ⟨d.year + 1, 1, (ymd2ord d - isoweek1monday d.year) % 7 + 1⟩
      else
        ⟨d.year, (ymd2ord d - isoweek1monday d.year) / 7 + 1,
          (ymd2ord d - isoweek1monday d.year) % 7 + 1⟩) := rfl

/-- The ISO week number of any valid date is between 1 and 53. -/
lemma isocalendar_week_bounds (d : Date) (h : validDate d) :
    1 ≤ (isocalendar d).week ∧ (isocalendar d).week ≤ 53 := by
  have hord := ymd2ord_bounds d h
  have hw := isoweek1monday_props d.year
  rw [isocalendar_eq]
  split_ifs with h1 h2
  · have hwp := isoweek1monday_props (d.year - 1)
    have hstep := isoweek1monday_succ (d.year - 1)
    have harg : d.year - 1 + 1 = d.year := by ring
    rw [harg] at hstep
    dsimp only
    omega
  · dsimp only
    omega
  · have hs := daysBeforeYear_succ d.year
    dsimp only
    split_ifs at hs <;> omega

/-- C1: the prediction operation returns max(0, round(r)) for every
real-valued scorer output r, hence a non-negative integer; a scorer
output of -3.2 yields 0. -/
theorem predict_visits_nonneg :
    (∀ raw : ℚ, 0 ≤ predict_visits raw) ∧ predict_visits (-16/5) = 0 := by
  constructor
  · intro raw
    exact le_max_left 0 (pyRound raw)
  · have hf : ⌊(-16/5 : ℚ)⌋ = -4 := by
      rw [Int.floor_eq_iff]
      norm_num
    unfold predict_visits pyRound
    rw [hf]
    norm_num

/-- C2: the week_of_year field uses ISO-8601 numbering; for 2024-12-30
(a Monday) it equals 1, and the ISO year attribution rolls to 2025. -/
theorem week_of_year_iso_boundary :
    (inputData "patient_a" ⟨2024, 12, 30⟩).week_of_year = 1 ∧
      (isocalendar ⟨2024, 12, 30⟩).year = 2025 := by
  decide

/-- C3: feature building fails with InvalidPatientError whenever the
patient is not a member of the roster. -/
theorem build_features_invalid_patient (roster : List String) (p : String)
    (d : Date) (h : p ∉ roster) :
    build_features roster p d = Except.error PredError.invalidPatientError := by
  unfold build_features
  rw [if_neg h]

/-- Witness for C3: with roster ["patient_a", "patient_b"] and input
"unknown_patient", feature building reports InvalidPatientError. -/
theorem build_features_invalid_patient_witness :
    "unknown_patient" ∉ ["patient_a", "patient_b"] ∧
      build_features ["patient_a", "patient_b"] "unknown_patient" ⟨2024, 1, 11⟩ =
        Except.error PredError.invalidPatientError :=
  ⟨by decide, build_features_invalid_patient _ _ _ (by decide)⟩

/-- C4: the quarter field equals ((month - 1) // 3) + 1, and lands in the
expected quarter for every month 1..12. -/
theorem inputData_quarter_formula (p : String) (d : Date) (h : validDate d) :
    (inputData p d).quarter = (d.month - 1) / 3 + 1 ∧
      (inputData p d).quarter =
        (if d.month ≤ 3 then 1 else if d.month ≤ 6 then 2
         else if d.month ≤ 9 then 3 else 4) := by
  obtain ⟨-, h2, h3, -, -⟩ := h
  refine ⟨rfl, ?_⟩
  show (d.month - 1) / 3 + 1 = _
  split_ifs <;> omega

/-- Witness for C4 at the concrete valid date 2024-01-11. -/
theorem inputData_quarter_formula_witness :
    validDate ⟨2024, 1, 11⟩ ∧
      ((inputData "patient_a" ⟨2024, 1, 11⟩).quarter =
          ((⟨2024, 1, 11⟩ : Date).month - 1) / 3 + 1 ∧
        (inputData "patient_a" ⟨2024, 1, 11⟩).quarter =
          (if (⟨2024, 1, 11⟩ : Date).month ≤ 3 then 1
           else if (⟨2024, 1, 11⟩ : Date).month ≤ 6 then 2
           else if (⟨2024, 1, 11⟩ : Date).month ≤ 9 then 3 else 4)) :=
  ⟨by decide, inputData_quarter_formula "patient_a" ⟨2024, 1, 11⟩ (by decide)⟩

/-- C6: the prediction operation reports ScoringError when the injected
scorer fails, synchronously to the caller. -/
theorem predict_visits_with_scoring_error (scorer : InputData → Option ℚ)
    (rec : InputData) (h : scorer rec = none) :
    predict_visits_with scorer rec = Except.error PredError.scoringError := by
  unfold predict_visits_with
  rw [h]

/-- Witness for C6: an always-failing scorer yields ScoringError on a
concrete feature record. -/
theorem predict_visits_with_scoring_error_witness :
    (fun _ : InputData => (none : Option ℚ)) (inputData "patient_a" ⟨2024, 1, 11⟩) =
        none ∧
      predict_visits_with (fun _ => none) (inputData "patient_a" ⟨2024, 1, 11⟩) =
        Except.error PredError.scoringError :=
  ⟨rfl, predict_visits_with_scoring_error _ _ rfl⟩

/-- C7: rounding of the scorer output uses round-half-to-even
consistently: every half-way input n + 1/2 rounds to the even neighbour
of n and n + 1; in particular 4.5 rounds to 4. -/
theorem pyRound_ties_to_even :
    (∀ n : ℤ, pyRound ((n : ℚ) + 1/2) = if n % 2 = 0 then n else n + 1) ∧
      pyRound (9/2) = 4 ∧ predict_visits (9/2) = 4 := by
  have key : ∀ n : ℤ, pyRound ((n : ℚ) + 1/2) = if n % 2 = 0 then n else n + 1 := by
    intro n
    have hf : ⌊(n : ℚ) + 1/2⌋ = n := by
      rw [Int.floor_eq_iff]
      constructor
      · simp
      · norm_num
    unfold pyRound
    rw [hf]
    simp only [add_sub_cancel_left]
    norm_num
  have h92 : (9/2 : ℚ) = ((4 : ℤ) : ℚ) + 1/2 := by norm_num
  have hp : pyRound (9/2) = 4 := by
    rw [h92, key]
    norm_num
  refine ⟨key, hp, ?_⟩
  unfold predict_visits
  rw [hp]
  rfl

/-- C8: feature building is deterministic; identical (patient, date)
inputs yield value-equal feature records. -/
theorem inputData_deterministic (p₁ p₂ : String) (d₁ d₂ : Date)
    (hp : p₁ = p₂) (hd : d₁ = d₂) : inputData p₁ d₁ = inputData p₂ d₂ := by
  rw [hp, hd]

/-- Witness for C8 on concrete equal inputs. -/
theorem inputData_deterministic_witness :
    "patient_a" = "patient_a" ∧ (⟨2024, 1, 11⟩ : Date) = ⟨2024, 1, 11⟩ ∧
      inputData "patient_a" ⟨2024, 1, 11⟩ = inputData "patient_a" ⟨2024, 1, 11⟩ :=
  ⟨rfl, rfl, inputData_deterministic "patient_a" "patient_a" ⟨2024, 1, 11⟩ ⟨2024, 1, 11⟩ rfl rfl⟩

/-- C10: the calendar-derived fields do not depend on the patient
identifier; two records built from different patients and the same date
agree on every field except the patient field. -/
theorem inputData_patient_independent (p₁ p₂ : String) (d : Date) :
    (inputData p₁ d).year = (inputData p₂ d).year ∧
      (inputData p₁ d).month = (inputData p₂ d).month ∧
      (inputData p₁ d).day_of_week = (inputData p₂ d).day_of_week ∧
      (inputData p₁ d).week_of_year = (inputData p₂ d).week_of_year ∧
      (inputData p₁ d).quarter = (inputData p₂ d).quarter :=
  ⟨rfl, rfl, rfl, rfl, rfl⟩

/-- C5: the day_of_week field lies in [0, 6] and is the date's actual
weekday with Monday = 0: it advances by one (mod 7) from each valid date
to its calendar successor, and is 0 on the known Monday 2024-12-30. -/
theorem inputData_day_of_week_correct :
    (∀ (p : String) (d : Date), validDate d →
        0 ≤ (inputData p d).day_of_week ∧ (inputData p d).day_of_week ≤ 6) ∧
      (∀ (p : String) (d : Date), validDate d →
        (inputData p (nextDate d)).day_of_week =
          ((inputData p d).day_of_week + 1) % 7) ∧
      (inputData "patient_a" ⟨2024, 12, 30⟩).day_of_week = 0 := by
  refine ⟨?_, ?_, by decide⟩
  · intro p d _
    show 0 ≤ weekday d ∧ weekday d ≤ 6
    unfold weekday
    omega
  · intro p d h
    show weekday (nextDate d) = (weekday d + 1) % 7
    exact weekday_nextDate d h

/-- Witness for C5 at the concrete valid date 2024-01-11 (a Thursday). -/
theorem inputData_day_of_week_correct_witness :
    validDate ⟨2024, 1, 11⟩ ∧
      (0 ≤ (inputData "patient_a" ⟨2024, 1, 11⟩).day_of_week ∧
        (inputData "patient_a" ⟨2024, 1, 11⟩).day_of_week ≤ 6) ∧
      (inputData "patient_a" (nextDate ⟨2024, 1, 11⟩)).day_of_week =
        ((inputData "patient_a" ⟨2024, 1, 11⟩).day_of_week + 1) % 7 :=
  ⟨by decide,
    inputData_day_of_week_correct.1 "patient_a" ⟨2024, 1, 11⟩ (by decide),
    inputData_day_of_week_correct.2.1 "patient_a" ⟨2024, 1, 11⟩ (by decide)⟩

/-- C9: for every valid date the feature record's numeric fields are in
range: month in 1..12, week_of_year in 1..53, quarter in 1..4. -/
theorem inputData_field_ranges (p : String) (d : Date) (h : validDate d) :
    (1 ≤ (inputData p d).month ∧ (inputData p d).month ≤ 12) ∧
      (1 ≤ (inputData p d).week_of_year ∧ (inputData p d).week_of_year ≤ 53) ∧
      (1 ≤ (inputData p d).quarter ∧ (inputData p d).quarter ≤ 4) := by
  obtain ⟨hy, hm1, hm2, hd1, hd2⟩ := h
  refine ⟨⟨hm1, hm2⟩, ?_, ?_⟩
  · exact isocalendar_week_bounds d ⟨hy, hm1, hm2, hd1, hd2⟩
  · show 1 ≤ (d.month - 1) / 3 + 1 ∧ (d.month - 1) / 3 + 1 ≤ 4
    omega

/-- Witness for C9 at the concrete valid date 2024-12-30. -/
theorem inputData_field_ranges_witness :
    validDate ⟨2024, 12, 30⟩ ∧
      ((1 ≤ (inputData "patient_a" ⟨2024, 12, 30⟩).month ∧
          (inputData "patient_a" ⟨2024, 12, 30⟩).month ≤ 12) ∧
        (1 ≤ (inputData "patient_a" ⟨2024, 12, 30⟩).week_of_year ∧
          (inputData "patient_a" ⟨2024, 12, 30⟩).week_of_year ≤ 53) ∧
        (1 ≤ (inputData "patient_a" ⟨2024, 12, 30⟩).quarter ∧
          (inputData "patient_a" ⟨2024, 12, 30⟩).quarter ≤ 4)) :=
  ⟨by decide, inputData_field_ranges "patient_a" ⟨2024, 12, 30⟩ (by decide)⟩

end HezlinHealthcare
